import Mathlib

/-!
Shallow embedding of the closing-platform workflow core
(`backend/services/state_machine.py`, `backend/api/transactions.py`,
`backend/api/tasks.py`) together with the data model it operates on
(`backend/models/{transaction,task,document}.py`).

Modelling conventions:
* Wall-clock time is an abstract tick counter `Nat`; `datetime.utcnow()`
  is modelled by a `now : Nat` parameter sampled once per call (the code
  samples it several times inside one call, but nothing proved here
  depends on the sub-call drift).  `datetime.utcnow().year` is modelled
  by a separate `year : Nat` parameter.
* JSON history entries are association lists `List (String × JValue)`
  built with exactly the keys the Python code writes.
* The database session is a pair of lists (tasks, documents); SQLAlchemy
  `query(...).filter(...)` becomes `List.filter` with the same predicate.
* Python `Optional[T]` becomes `Option T`; exceptions become `Except`.
-/

namespace Accelyra

/-- The 7 stages of `TransactionStage` in `backend/models/transaction.py`. -/
inductive TransactionStage where
  | OFFER_ACCEPTED
  | TITLE_SEARCH
  | UNDERWRITING
  | CLEAR_TO_CLOSE
  | FINAL_DOCUMENTS
  | FUNDING_SIGNING
  | RECORDING_COMPLETE
deriving DecidableEq, Repr

/-- The `.value` string of each `TransactionStage` member. -/
def TransactionStage.value : TransactionStage → String
  | .OFFER_ACCEPTED => "offer_accepted"
  | .TITLE_SEARCH => "title_search_ordered"
  | .UNDERWRITING => "lender_underwriting"
  | .CLEAR_TO_CLOSE => "clear_to_close"
  | .FINAL_DOCUMENTS => "final_documents_prepared"
  | .FUNDING_SIGNING => "funding_and_signing"
  | .RECORDING_COMPLETE => "recording_complete"

/-- `EarnestMoneyStatus` from `backend/models/transaction.py`. -/
inductive EarnestMoneyStatus where
  | PENDING | DEPOSITED | CLEARED | REFUNDED | APPLIED
deriving DecidableEq, Repr

/-- `TaskType` from `backend/models/task.py`. -/
inductive TaskType where
  | DOCUMENT_UPLOAD | DOCUMENT_SIGN | DOCUMENT_REVIEW | PAYMENT
  | VERIFICATION | INSPECTION | APPROVAL | NOTIFICATION | OTHER
deriving DecidableEq, Repr

/-- `TaskStatus` from `backend/models/task.py`. -/
inductive TaskStatus where
  | PENDING | IN_PROGRESS | BLOCKED | COMPLETED | CANCELLED | OVERDUE
deriving DecidableEq, Repr

/-- `TaskPriority` from `backend/models/task.py`. -/
inductive TaskPriority where
  | LOW | NORMAL | HIGH | CRITICAL
deriving DecidableEq, Repr

/-- `DocumentStatus` from `backend/models/document.py`. -/
inductive DocumentStatus where
  | PENDING_UPLOAD | UPLOADED | PROCESSING | PENDING_REVIEW
  | APPROVED | REJECTED | SUPERSEDED
deriving DecidableEq, Repr

/-- JSON scalar values stored in the `stage_history` JSON blob.  Timestamps
(`isoformat()` strings) are abstract ticks wrapped in `jnum`; monetary amounts
are likewise `jnum` (no arithmetic is ever performed on them). -/
inductive JValue where
  | jstr : String → JValue
  | jbool : Bool → JValue
  | jnum : Int → JValue
  | jnull : JValue
deriving DecidableEq, Repr

/-- One entry of the `stage_history` JSON array: a Python dict modelled as an
association list in insertion order. -/
abbrev HistoryEntry := List (String × JValue)

/-- Python `dict.get(key)`: first binding of the key, if any. -/
def entryGet (e : HistoryEntry) (k : String) : Option JValue :=
  (e.find? (fun p => p.fst == k)).map Prod.snd

/-- The columns of the `tasks` table used by the workflow core
(`backend/models/task.py`). -/
structure Task where
  id : String
  transaction_id : String
  title : String
  description : String
  task_type : TaskType
  assigned_to : Option String
  assigned_by : String
  status : TaskStatus
  priority : TaskPriority
  due_date : Nat
  is_blocking : Bool
  related_stage : String
  completed_at : Option Nat
  completion_notes : Option String
  completion_data : Option (List (String × JValue))
deriving DecidableEq, Repr

/-- The columns of the `documents` table the core reads
(`backend/models/document.py`); the core only performs existence checks.
`document_type` is modelled at the query-comparison level as the type's
string identifier. -/
structure Document where
  id : String
  transaction_id : String
  document_type : String
  status : DocumentStatus
deriving DecidableEq, Repr

/-- The columns of the `transactions` table used by the workflow core
(`backend/models/transaction.py`).  `stage_history` is `Option` because the
column is nullable and the code guards `if transaction.stage_history is None`. -/
structure Transaction where
  id : String
  current_stage : TransactionStage
  stage_started_at : Option Nat
  created_at : Nat
  estimated_closing_date : Nat
  actual_closing_date : Option Nat
  stage_history : Option (List HistoryEntry)
  earnest_money_status : EarnestMoneyStatus
  earnest_money_deposited_at : Option Nat
  funds_verified : Bool
  funds_verified_at : Option Nat
  funds_verified_by : Option String
  buyer_id : Option String
  seller_id : Option String
  buyer_agent_id : Option String
  seller_agent_id : Option String
  loan_officer_id : Option String
  title_officer_id : Option String
deriving DecidableEq, Repr

/-- The database session visible to the core: the task and document tables. -/
structure Db where
  tasks : List Task
  documents : List Document
deriving DecidableEq, Repr

/-- `TransactionStateMachine.STAGE_ORDER`. -/
def STAGE_ORDER : List TransactionStage :=
  [ .OFFER_ACCEPTED, .TITLE_SEARCH, .UNDERWRITING, .CLEAR_TO_CLOSE,
    .FINAL_DOCUMENTS, .FUNDING_SIGNING, .RECORDING_COMPLETE ]

/-- `TransactionStateMachine.STAGE_DURATIONS` (a dict, kept as an
association list). -/
def STAGE_DURATIONS : List (TransactionStage × Nat) :=
  [ (.OFFER_ACCEPTED, 1), (.TITLE_SEARCH, 2), (.UNDERWRITING, 4),
    (.CLEAR_TO_CLOSE, 1), (.FINAL_DOCUMENTS, 2), (.FUNDING_SIGNING, 2),
    (.RECORDING_COMPLETE, 1) ]

/-- `self.STAGE_DURATIONS.get(stage, 2)` — dict lookup with default 2
(as written in `_generate_stage_tasks`; the dict is total, so the default
is never hit). -/
def stageDurationGet (s : TransactionStage) : Nat :=
  ((STAGE_DURATIONS.find? (fun p => p.fst == s)).map Prod.snd).getD 2

/-- `self.STAGE_DURATIONS[stage]` — direct dict indexing as used in
`advance_stage` and `estimate_days_to_close` (total on the 7 members). -/
def stageDurationIdx (s : TransactionStage) : Nat :=
  stageDurationGet s

/-- `self.STAGE_ORDER.index(stage)` — position of a stage in the order. -/
def stageIndex (s : TransactionStage) : Nat :=
  STAGE_ORDER.indexOf s

/-- `", ".join(titles)` from `can_advance_to_next_stage`. -/
def joinComma : List String → String
  | [] => ""
  | [t] => t
  | t :: rest => t ++ ", " ++ joinComma rest

/-- The per-stage required document types
(`stage_document_requirements` dict in `_check_required_documents`). -/
def stage_document_requirements : TransactionStage → List String
  | .OFFER_ACCEPTED => []
  | .TITLE_SEARCH => []
  | .UNDERWRITING => ["proof_of_funds"]
  | .CLEAR_TO_CLOSE => ["insurance_policy"]
  | .FINAL_DOCUMENTS => ["closing_disclosure"]
  | .FUNDING_SIGNING => []
  | .RECORDING_COMPLETE => ["deed"]

/-- The document existence query inside the loop of
`_check_required_documents`: an APPROVED document of the given type for the
transaction (`.first()` is an existence check). -/
def docApproved (db : Db) (txn : Transaction) (doc_type : String) : Bool :=
  db.documents.any (fun d =>
    d.transaction_id == txn.id && d.document_type == doc_type
      && d.status == DocumentStatus.APPROVED)

/-- The `for doc_type in required_docs` loop of `_check_required_documents`:
fail on the first type without an approved document. -/
def checkDocsLoop (db : Db) (txn : Transaction) :
    List String → Bool × Option String
  | [] => (true, none)
  | doc_type :: rest =>
      if docApproved db txn doc_type then checkDocsLoop db txn rest
      else (false, some ("Required document '" ++ doc_type ++ "' not approved"))

/-- `TransactionStateMachine._check_required_documents`.  The code first
returns early when the requirement list is empty; the recursion's base case
is that same early return. -/
def check_required_documents (db : Db) (txn : Transaction)
    (stage : TransactionStage) : Bool × Option String :=
  checkDocsLoop db txn (stage_document_requirements stage)

/-- The blocking-task query in `can_advance_to_next_stage`: tasks of this
transaction, tied to the current stage, blocking, and not completed. -/
def blockingTasksQuery (db : Db) (txn : Transaction) : List Task :=
  db.tasks.filter (fun t =>
    t.transaction_id == txn.id
      && t.related_stage == txn.current_stage.value
      && t.is_blocking
      && !(t.status == TaskStatus.COMPLETED))

/-- `TransactionStateMachine.can_advance_to_next_stage`. -/
def can_advance_to_next_stage (db : Db) (txn : Transaction) :
    Bool × Option String :=
  let current_stage := txn.current_stage
  if current_stage = TransactionStage.RECORDING_COMPLETE then
    (false, some "Transaction is already complete")
  else
    let blocking_tasks := blockingTasksQuery db txn
    if blocking_tasks ≠ [] then
      (false, some ("Blocking tasks incomplete: "
        ++ joinComma (blocking_tasks.map Task.title)))
    else
      let required_doc_checks := check_required_documents db txn current_stage
      if !required_doc_checks.fst then (false, required_doc_checks.snd)
      else (true, none)

/-- `TransactionStateMachine._get_party_by_role`: `role_mapping.get(role)`
flattening the two sources of `None` (missing key / unassigned column),
as Python's `dict.get` does observably. -/
def get_party_by_role (txn : Transaction) (role : String) : Option String :=
  match role with
  | "buyer" => txn.buyer_id
  | "seller" => txn.seller_id
  | "buyer_agent" => txn.buyer_agent_id
  | "seller_agent" => txn.seller_agent_id
  | "loan_officer" => txn.loan_officer_id
  | "title_officer" => txn.title_officer_id
  | _ => none

/-- One row of the `stage_tasks` template table in `_generate_stage_tasks`:
`(title, description, task_type, assigned_to_role, is_blocking, priority)`. -/
structure TaskTemplate where
  title : String
  description : String
  task_type : TaskType
  role : String
  is_blocking : Bool
  priority : TaskPriority
deriving DecidableEq, Repr

/-- The static `stage_tasks` template table of `_generate_stage_tasks`
(`stage_tasks.get(stage, [])` is total over the 7 members). -/
def stage_tasks : TransactionStage → List TaskTemplate
  | .OFFER_ACCEPTED =>
    [ ⟨"Deposit earnest money", "Buyer must deposit earnest money to escrow account",
        .PAYMENT, "buyer", true, .CRITICAL⟩,
      ⟨"Upload proof of funds", "Upload bank statement or pre-approval letter",
        .DOCUMENT_UPLOAD, "buyer", true, .HIGH⟩,
      ⟨"Open escrow account", "Title company to open escrow account",
        .OTHER, "title_officer", true, .HIGH⟩ ]
  | .TITLE_SEARCH =>
    [ ⟨"Order title search", "Title company to search property records",
        .OTHER, "title_officer", true, .CRITICAL⟩,
      ⟨"Review title report", "Review title search results for issues",
        .DOCUMENT_REVIEW, "title_officer", true, .HIGH⟩ ]
  | .UNDERWRITING =>
    [ ⟨"Submit loan application", "Complete and submit mortgage application",
        .OTHER, "buyer", true, .CRITICAL⟩,
      ⟨"Schedule home inspection", "Hire inspector and schedule inspection",
        .INSPECTION, "buyer", false, .NORMAL⟩,
      ⟨"Order appraisal", "Lender to order property appraisal",
        .OTHER, "loan_officer", true, .HIGH⟩,
      ⟨"Verify employment", "Lender to verify buyer employment and income",
        .VERIFICATION, "loan_officer", true, .HIGH⟩ ]
  | .CLEAR_TO_CLOSE =>
    [ ⟨"Obtain clear to close", "Final underwriting approval from lender",
        .APPROVAL, "loan_officer", true, .CRITICAL⟩,
      ⟨"Upload insurance policy", "Provide proof of homeowners insurance",
        .DOCUMENT_UPLOAD, "buyer", true, .HIGH⟩ ]
  | .FINAL_DOCUMENTS =>
    [ ⟨"Prepare closing disclosure", "Title company prepares final settlement statement",
        .OTHER, "title_officer", true, .CRITICAL⟩,
      ⟨"Review closing disclosure", "Buyer and seller review closing costs",
        .DOCUMENT_REVIEW, "buyer", true, .HIGH⟩,
      ⟨"Prepare deed", "Title company prepares property deed",
        .OTHER, "title_officer", true, .HIGH⟩ ]
  | .FUNDING_SIGNING =>
    [ ⟨"Wire down payment", "Buyer to wire down payment funds to escrow",
        .PAYMENT, "buyer", true, .CRITICAL⟩,
      ⟨"Sign closing documents", "Buyer and seller sign all closing documents",
        .DOCUMENT_SIGN, "buyer", true, .CRITICAL⟩,
      ⟨"Lender funds loan", "Lender wires loan amount to escrow",
        .PAYMENT, "loan_officer", true, .CRITICAL⟩ ]
  | .RECORDING_COMPLETE =>
    [ ⟨"Record deed", "County recorder records deed and transfer",
        .OTHER, "title_officer", true, .CRITICAL⟩,
      ⟨"Disburse funds", "Escrow disburses funds to seller and vendors",
        .PAYMENT, "title_officer", true, .HIGH⟩ ]

/-- Little-endian base-10 digits with explicit fuel (kernel-computable;
`natDecimalDigits` below instantiates the fuel). -/
def natDigitsAux : Nat → Nat → List Nat
  | 0, _ => []
  | _ + 1, 0 => []
  | fuel + 1, n + 1 => (n + 1) % 10 :: natDigitsAux fuel ((n + 1) / 10)

/-- Little-endian base-10 digits of `n` (empty for 0). -/
def natDecimalDigits (n : Nat) : List Nat := natDigitsAux n n

/-- Python `format(n, "04d")`: the decimal digits of `n`, left-padded with
zeros to at least 4 characters. -/
def format04d (n : Nat) : String :=
  let core := (natDecimalDigits n).reverse.map Nat.digitChar
  let padded := if core.length < 4
    then List.replicate (4 - core.length) '0' ++ core else core
  String.mk padded

/-- The task-id format string of `_generate_stage_tasks`:
`f"TASK-\x7bdatetime.utcnow().year\x7d-\x7btask_count + i + 1:04d\x7d"`. -/
def mkTaskId (year n : Nat) : String :=
  "TASK-" ++ toString year ++ "-" ++ format04d n

/-- `TransactionStateMachine._generate_stage_tasks`: builds the new `Task`
rows for a stage.  `task_count` is `self.db.query(Task).count()` read once
before the loop; the created rows are returned (i.e. `self.db.add(task)`
accumulated). -/
def generate_stage_tasks (now year task_count : Nat) (txn : Transaction)
    (stage : TransactionStage) : List Task :=
  (stage_tasks stage).enum.map (fun p =>
    let i := p.fst
    let td := p.snd
    let task_id := mkTaskId year (task_count + i + 1)
    let days_until_due := stageDurationGet stage
    let due_date := now + days_until_due
    let assigned_to := get_party_by_role txn td.role
    { id := task_id
      transaction_id := txn.id
      title := td.title
      description := td.description
      task_type := td.task_type
      assigned_to := assigned_to
      assigned_by := "system"
      status := TaskStatus.PENDING
      priority := td.priority
      due_date := due_date
      is_blocking := td.is_blocking
      related_stage := stage.value
      completed_at := none
      completion_notes := none
      completion_data := none })

/-- The two exception classes of `backend/services/state_machine.py`. -/
inductive AdvanceError where
  | stageTransition (msg : String)
  | stageRequirement (msg : String)
deriving DecidableEq, Repr

/-- `self.STAGE_ORDER[current_index + 1]` — the successor stage.  The code
indexes unguarded; it is only reached when the current stage is not terminal,
so the index is in range (the `getD` default is never hit there). -/
def nextStage (s : TransactionStage) : TransactionStage :=
  STAGE_ORDER.getD (stageIndex s + 1) TransactionStage.RECORDING_COMPLETE

/-- The stage-entered history dict built in `advance_stage`:
keys `stage`, `entered_at`, `notes`, `force_advanced` in insertion order. -/
def advanceHistoryEntry (next : TransactionStage) (now : Nat)
    (notes : Option String) (force : Bool) : HistoryEntry :=
  [ ("stage", JValue.jstr next.value),
    ("entered_at", JValue.jnum (Int.ofNat now)),
    ("notes", JValue.jstr (notes.getD "")),
    ("force_advanced", JValue.jbool force) ]

/-- `sum(STAGE_DURATIONS[stage] for stage in STAGE_ORDER[i:])`. -/
def sumDurationsFrom (i : Nat) : Nat :=
  ((STAGE_ORDER.drop i).map stageDurationIdx).sum

/-- `TransactionStateMachine.advance_stage`.  Returns the updated transaction
together with the rows added by `_generate_stage_tasks`; an exception is an
`Except.error`, raised before any mutation, so an error result carries no
updated state — exactly as in the code, where both `raise` statements precede
every assignment. -/
def advance_stage (db : Db) (txn : Transaction) (now year : Nat)
    (notes : Option String) (force : Bool) :
    Except AdvanceError (Transaction × List Task) :=
  let current_stage := txn.current_stage
  if current_stage = TransactionStage.RECORDING_COMPLETE then
    Except.error (.stageTransition "Transaction is already complete")
  else if !force && !(can_advance_to_next_stage db txn).fst then
    Except.error (.stageRequirement ("Cannot advance stage: "
      ++ ((can_advance_to_next_stage db txn).snd.getD "None")))
  else
    let current_index := stageIndex current_stage
    let next_stage := STAGE_ORDER.getD (current_index + 1)
      TransactionStage.RECORDING_COMPLETE
    let stage_entry := advanceHistoryEntry next_stage now notes force
    let history := txn.stage_history.getD []
    let remaining_days := sumDurationsFrom (current_index + 1)
    let txn' : Transaction :=
      { txn with
        stage_history := some (history ++ [stage_entry])
        current_stage := next_stage
        stage_started_at := some now
        estimated_closing_date := now + remaining_days
        actual_closing_date :=
          if next_stage = TransactionStage.RECORDING_COMPLETE then some now
          else txn.actual_closing_date }
    let new_tasks := generate_stage_tasks now year db.tasks.length txn' next_stage
    Except.ok (txn', new_tasks)

/-- The initial history entry written by `create_transaction` in
`backend/api/transactions.py` — note: no `force_advanced` key. -/
def createHistoryEntry (now : Nat) : HistoryEntry :=
  [ ("stage", JValue.jstr TransactionStage.OFFER_ACCEPTED.value),
    ("entered_at", JValue.jnum (Int.ofNat now)),
    ("notes", JValue.jstr "Transaction created") ]

/-- The role-assignment inputs of `TransactionCreate`. -/
structure RoleIds where
  buyer_id : Option String
  seller_id : Option String
  buyer_agent_id : Option String
  seller_agent_id : Option String
  loan_officer_id : Option String
  title_officer_id : Option String
deriving DecidableEq, Repr

/-- `create_transaction` in `backend/api/transactions.py`, restricted to the
workflow-relevant fields: the new transaction starts at `OFFER_ACCEPTED` with
a single-entry history and the initial tasks come from
`_generate_stage_tasks(transaction, OFFER_ACCEPTED)`.  `txn_count` is
`db.query(Transaction).count()`; `task_count` is the task-table count at
generation time. -/
def create_transaction (now year txn_count task_count : Nat)
    (roles : RoleIds) : Transaction × List Task :=
  let txn_id := "TXN-" ++ toString year ++ "-" ++ format04d (txn_count + 1)
  let txn : Transaction :=
    { id := txn_id
      current_stage := TransactionStage.OFFER_ACCEPTED
      stage_started_at := some now
      created_at := now
      estimated_closing_date := now + 13
      actual_closing_date := none
      stage_history := some [createHistoryEntry now]
      earnest_money_status := EarnestMoneyStatus.PENDING
      earnest_money_deposited_at := none
      funds_verified := false
      funds_verified_at := none
      funds_verified_by := none
      buyer_id := roles.buyer_id
      seller_id := roles.seller_id
      buyer_agent_id := roles.buyer_agent_id
      seller_agent_id := roles.seller_agent_id
      loan_officer_id := roles.loan_officer_id
      title_officer_id := roles.title_officer_id }
  (txn, generate_stage_tasks now year task_count txn
    TransactionStage.OFFER_ACCEPTED)

/-- The domain-event history dict appended by `deposit_earnest_money`. -/
def depositHistoryEntry (now : Nat) (amount : Int) (notes : Option String) :
    HistoryEntry :=
  [ ("event", JValue.jstr "earnest_money_deposited"),
    ("timestamp", JValue.jnum (Int.ofNat now)),
    ("amount", JValue.jnum amount),
    ("notes", JValue.jstr (notes.getD "")) ]

/-- `deposit_earnest_money` in `backend/api/transactions.py` (the mutation on
the found transaction; lookup failure is transport-level 404 and out of the
core). -/
def deposit_earnest_money (txn : Transaction) (now : Nat) (amount : Int)
    (deposited_at : Option Nat) (notes : Option String) : Transaction :=
  { txn with
    earnest_money_status := EarnestMoneyStatus.DEPOSITED
    earnest_money_deposited_at := some (deposited_at.getD now)
    stage_history := some ((txn.stage_history.getD [])
      ++ [depositHistoryEntry now amount notes]) }

/-- The domain-event history dict appended by `verify_funds`; a `None`
`verification_method` is stored as JSON null. -/
def verifyHistoryEntry (now : Nat) (verified_by : String)
    (method : Option String) (notes : Option String) : HistoryEntry :=
  [ ("event", JValue.jstr "funds_verified"),
    ("timestamp", JValue.jnum (Int.ofNat now)),
    ("verified_by", JValue.jstr verified_by),
    ("method", match method with | some m => JValue.jstr m | none => JValue.jnull),
    ("notes", JValue.jstr (notes.getD "")) ]

/-- `verify_funds` in `backend/api/transactions.py` (the mutation on the
found transaction). -/
def verify_funds (txn : Transaction) (now : Nat) (verified_by : String)
    (method : Option String) (notes : Option String) : Transaction :=
  { txn with
    funds_verified := true
    funds_verified_at := some now
    funds_verified_by := some verified_by
    stage_history := some ((txn.stage_history.getD [])
      ++ [verifyHistoryEntry now verified_by method notes]) }

/-- One element of the `stages` list built by `get_stage_progress`. -/
structure StageInfo where
  stage : String
  order : Nat
  status : String
  entered_at : Option JValue
  notes : Option JValue
deriving DecidableEq, Repr

/-- The dict returned by `get_stage_progress`. -/
structure Progress where
  current_stage : String
  current_stage_index : Nat
  total_stages : Nat
  percent_complete : Nat
  stages : List StageInfo
deriving DecidableEq, Repr

/-- The history scan in `get_stage_progress`: first entry whose `stage` key
equals the given stage name (`break` after the first hit; the surrounding
truthiness guard `if transaction.stage_history:` is a no-op because scanning
an empty list finds nothing). -/
def historyFindStage (txn : Transaction) (stageName : String) :
    Option HistoryEntry :=
  (txn.stage_history.getD []).find?
    (fun e => entryGet e "stage" == some (JValue.jstr stageName))

/-- `TransactionStateMachine.get_stage_progress`.
`int((current_index / len(STAGE_ORDER)) * 100)` is modelled as
`(current_index * 100) / 7` in truncated natural division; for the seven
possible indices 0..6 the float computation and the exact one truncate to
the same integer. -/
def get_stage_progress (txn : Transaction) : Progress :=
  let current_stage := txn.current_stage
  let current_index := stageIndex current_stage
  { current_stage := current_stage.value
    current_stage_index := current_index
    total_stages := STAGE_ORDER.length
    percent_complete := (current_index * 100) / STAGE_ORDER.length
    stages := STAGE_ORDER.enum.map (fun p =>
      let i := p.fst
      let stage := p.snd
      let found := historyFindStage txn stage.value
      { stage := stage.value
        order := i
        status := if i < current_index then "complete"
          else if i == current_index then "current" else "pending"
        entered_at := found.bind (fun e => entryGet e "entered_at")
        notes := found.bind (fun e => entryGet e "notes") }) }

/-- `TransactionStateMachine.estimate_days_to_close`: sum of the durations of
the stages from the current one (inclusive) to the end. -/
def estimate_days_to_close (txn : Transaction) : Nat :=
  sumDurationsFrom (stageIndex txn.current_stage)

/-- The request body of `POST /tasks/\x7btask_id\x7d/complete`. -/
structure TaskComplete where
  completion_notes : Option String
  completion_data : Option (List (String × JValue))
deriving DecidableEq, Repr

/-- The success payload of `complete_task` (fields other than the fixed
`success`/`message` pair omitted). -/
structure CompleteResponse where
  success : Bool
  message : String
deriving DecidableEq, Repr

/-- `complete_task` in `backend/api/tasks.py` (the branch on a found task).
An already-completed task is returned untouched with an early success
response; otherwise status/completed_at/completion_notes are set, and
`completion_data` only when the request's dict is truthy. -/
def complete_task (task : Task) (completion : TaskComplete) (now : Nat) :
    Task × CompleteResponse :=
  if task.status = TaskStatus.COMPLETED then
    (task, { success := true, message := "Task was already completed" })
  else
    let task' : Task :=
      { task with
        status := TaskStatus.COMPLETED
        completed_at := some now
        completion_notes := completion.completion_notes
        completion_data :=
          if completion.completion_data.getD [] = [] then task.completion_data
          else completion.completion_data }
    (task', { success := true, message := "Task completed successfully" })

/-- The call-time inputs of one `advance_stage` invocation. -/
structure AdvInput where
  db : Db
  now : Nat
  year : Nat
  notes : Option String
  force : Bool
deriving Repr

/-- A sequence of `advance_stage` calls, all of which must succeed
(`none` when any call raises). -/
def runAdvances : Transaction → List AdvInput → Option Transaction
  | txn, [] => some txn
  | txn, a :: rest =>
      match advance_stage a.db txn a.now a.year a.notes a.force with
      | Except.ok (txn', _) => runAdvances txn' rest
      | Except.error _ => none

/-- Any of the three history-appending operations on one case. -/
inductive CaseOp where
  | adv (a : AdvInput)
  | dep (now : Nat) (amount : Int) (deposited_at : Option Nat)
        (notes : Option String)
  | ver (now : Nat) (verified_by : String) (method : Option String)
        (notes : Option String)

/-- Apply one operation; `none` when `advance_stage` raises. -/
def applyCaseOp (txn : Transaction) : CaseOp → Option Transaction
  | .adv a =>
      match advance_stage a.db txn a.now a.year a.notes a.force with
      | Except.ok (txn', _) => some txn'
      | Except.error _ => none
  | .dep now amount deposited_at notes =>
      some (deposit_earnest_money txn now amount deposited_at notes)
  | .ver now verified_by method notes =>
      some (verify_funds txn now verified_by method notes)

/-- A sequence of case operations, all of which must succeed. -/
def runCaseOps : Transaction → List CaseOp → Option Transaction
  | txn, [] => some txn
  | txn, op :: rest =>
      match applyCaseOp txn op with
      | some txn' => runCaseOps txn' rest
      | none => none

deriving instance DecidableEq for Except

/-- The stage names of the stage-entered events of a history log, in log
order: the entries that carry a string under the `stage` key (domain events
carry no `stage` key). -/
def stageEnteredStages (h : List HistoryEntry) : List String :=
  h.filterMap (fun e =>
    match entryGet e "stage" with
    | some (JValue.jstr s) => some s
    | _ => none)

/-- The keys of a history entry in insertion order. -/
def entryKeys (e : HistoryEntry) : List String := e.map Prod.fst

/-- Shape of the initial creation entry: keys `stage`, `entered_at`, `notes`
and nothing else. -/
def isCreateStageShape (e : HistoryEntry) : Bool :=
  entryKeys e == ["stage", "entered_at", "notes"]

/-- Shape of a stage-entered event as the claim states it: keys `stage`,
`entered_at`, `notes` and the forced flag (`force_advanced` in the code). -/
def isAdvanceStageShape (e : HistoryEntry) : Bool :=
  entryKeys e == ["stage", "entered_at", "notes", "force_advanced"]

/-- Shape of a domain event: an event name under `event`, a `timestamp`,
and then arbitrary attribute keys. -/
def isDomainEventShape (e : HistoryEntry) : Bool :=
  match e with
  | ("event", _) :: ("timestamp", _) :: _ => true
  | _ => false

/-- First required document type of the stage with no approved document. -/
def firstMissingDoc (db : Db) (txn : Transaction) (stage : TransactionStage) :
    Option String :=
  (stage_document_requirements stage).find? (fun dt => !(docApproved db txn dt))

/-- The remaining-days table as the spec describes it: the sum of the nominal
durations of the given stage through the terminal stage, written out
independently of the implementation's list slicing. -/
def remainingDaysSpec : TransactionStage → Nat
  | .OFFER_ACCEPTED => 1 + (2 + (4 + (1 + (2 + (2 + 1)))))
  | .TITLE_SEARCH => 2 + (4 + (1 + (2 + (2 + 1))))
  | .UNDERWRITING => 4 + (1 + (2 + (2 + 1)))
  | .CLEAR_TO_CLOSE => 1 + (2 + (2 + 1))
  | .FINAL_DOCUMENTS => 2 + (2 + 1)
  | .FUNDING_SIGNING => 2 + 1
  | .RECORDING_COMPLETE => 1

/-- A concrete role-assignment fixture used by closed witness statements. -/
def sampleRoles : RoleIds :=
  { buyer_id := some "PARTY-001", seller_id := some "PARTY-002",
    buyer_agent_id := none, seller_agent_id := none,
    loan_officer_id := none, title_officer_id := some "PARTY-003" }

/-- A concrete transaction fixture at a chosen stage, used by closed witness
statements. -/
def txnAt (s : TransactionStage) : Transaction :=
  { id := "TXN-2024-0001", current_stage := s,
    stage_started_at := some 0, created_at := 0, estimated_closing_date := 13,
    actual_closing_date := none, stage_history := some [createHistoryEntry 0],
    earnest_money_status := .PENDING, earnest_money_deposited_at := none,
    funds_verified := false, funds_verified_at := none, funds_verified_by := none,
    buyer_id := some "PARTY-001", seller_id := some "PARTY-002",
    buyer_agent_id := none, seller_agent_id := none, loan_officer_id := none,
    title_officer_id := some "PARTY-003" }

/-- A concrete pending blocking task fixture for the first stage. -/
def sampleBlockingTask : Task :=
  { id := "TASK-2024-0001", transaction_id := "TXN-2024-0001",
    title := "Deposit earnest money",
    description := "Buyer must deposit earnest money to escrow account",
    task_type := .PAYMENT, assigned_to := some "PARTY-001",
    assigned_by := "system", status := .PENDING, priority := .CRITICAL,
    due_date := 1, is_blocking := true, related_stage := "offer_accepted",
    completed_at := none, completion_notes := none, completion_data := none }

/-- The same fixture task after completion. -/
def sampleCompletedTask : Task :=
  { sampleBlockingTask with
    status := .COMPLETED, completed_at := some 2,
    completion_notes := some "done" }

/-- Invariant relating history and stage pointer: the stage-entered events of
the history are exactly the prefix of the stage order up to (and including)
the current stage. -/
def stageInv (txn : Transaction) : Prop :=
  stageEnteredStages (txn.stage_history.getD [])
    = (STAGE_ORDER.map TransactionStage.value).take
        (stageIndex txn.current_stage + 1)

/-- The amended well-formedness of a single history entry: a creation-shaped
stage event, an advance-shaped stage event, or a domain event. -/
def histShapeGood (e : HistoryEntry) : Bool :=
  isCreateStageShape e || isAdvanceStageShape e || isDomainEventShape e

/-- Invariant: every history entry has a good shape. -/
def histShapeInv (txn : Transaction) : Prop :=
  ∀ e ∈ txn.stage_history.getD [], histShapeGood e = true

/-- The concrete transaction obtained by one forced-free advance of the
first-stage fixture against an empty store (used by closed witnesses). -/
def sampleAdvanced : Transaction :=
  ((advance_stage ⟨[], []⟩ (txnAt .OFFER_ACCEPTED) 5 2024 none false).map
    Prod.fst).toOption.getD (txnAt .OFFER_ACCEPTED)

theorem sumDurationsFrom_eq_spec (s : TransactionStage) :
    sumDurationsFrom (stageIndex s) = remainingDaysSpec s := by
  cases s <;> rfl

theorem stageIndex_le_six (s : TransactionStage) : stageIndex s ≤ 6 := by
  cases s <;> decide

theorem stageIndex_nonterminal (s : TransactionStage)
    (h : s ≠ TransactionStage.RECORDING_COMPLETE) : stageIndex s ≤ 5 := by
  cases s <;> first | decide | exact absurd rfl h

theorem stageIndex_nextStage (s : TransactionStage)
    (h : s ≠ TransactionStage.RECORDING_COMPLETE) :
    stageIndex (nextStage s) = stageIndex s + 1 := by
  cases s <;> first | decide | exact absurd rfl h

/-- C7: `estimate_days_to_close` returns the sum of the nominal durations of
the current stage through the terminal stage inclusive; at the terminal stage
it returns the terminal stage's own nominal duration (1), not 0; and it is a
pure function of the live stage pointer (so two cases in the same stage —
in particular one case before and after anything that did not move the
pointer — always get the same estimate, i.e. nothing is cached). -/
theorem estimate_days_matches_spec (txn : Transaction) :
    estimate_days_to_close txn = remainingDaysSpec txn.current_stage
    ∧ (txn.current_stage = TransactionStage.RECORDING_COMPLETE →
        estimate_days_to_close txn
            = stageDurationIdx TransactionStage.RECORDING_COMPLETE
          ∧ estimate_days_to_close txn ≠ 0)
    ∧ (∀ txn₂ : Transaction, txn₂.current_stage = txn.current_stage →
        estimate_days_to_close txn₂ = estimate_days_to_close txn) := by
  refine ⟨sumDurationsFrom_eq_spec txn.current_stage, ?_, ?_⟩
  · intro h
    constructor
    · show sumDurationsFrom (stageIndex txn.current_stage) = _
      rw [h]; rfl
    · show sumDurationsFrom (stageIndex txn.current_stage) ≠ 0
      rw [h]; decide
  · intro txn₂ h
    show sumDurationsFrom (stageIndex txn₂.current_stage) = _
    rw [h]; rfl

/-- Witness for C7 at the terminal-stage fixture and a same-stage pair. -/
theorem estimate_days_matches_spec_witness :
    estimate_days_to_close (txnAt TransactionStage.RECORDING_COMPLETE)
        = stageDurationIdx TransactionStage.RECORDING_COMPLETE
    ∧ estimate_days_to_close (txnAt TransactionStage.RECORDING_COMPLETE) ≠ 0
    ∧ estimate_days_to_close sampleAdvanced
        = estimate_days_to_close (txnAt TransactionStage.TITLE_SEARCH) := by
  refine ⟨((estimate_days_matches_spec
      (txnAt TransactionStage.RECORDING_COMPLETE)).2.1 (by decide)).1,
    ((estimate_days_matches_spec
      (txnAt TransactionStage.RECORDING_COMPLETE)).2.1 (by decide)).2,
    (estimate_days_matches_spec (txnAt TransactionStage.TITLE_SEARCH)).2.2
      sampleAdvanced (by decide)⟩

/-- C8: completing an already-completed work item is a no-op that reports
success — the task is returned with every field unchanged, together with the
fixed early-return success response, and no error path exists. -/
theorem complete_task_idempotent (task : Task) (completion : TaskComplete)
    (now : Nat) (h : task.status = TaskStatus.COMPLETED) :
    complete_task task completion now
      = (task, { success := true, message := "Task was already completed" }) := by
  simp [complete_task, h]

/-- Witness for C8 on the completed fixture task. -/
theorem complete_task_idempotent_witness :
    complete_task sampleCompletedTask ⟨some "again", some [("k", JValue.jstr "v")]⟩ 99
      = (sampleCompletedTask,
          { success := true, message := "Task was already completed" }) :=
  complete_task_idempotent sampleCompletedTask
    ⟨some "again", some [("k", JValue.jstr "v")]⟩ 99 (by decide)

/-- C6: the progress view reports the current stage index, 7 total stages,
`floor(100 * index / 7)` percent complete (hence strictly below 100 even at
the terminal stage), a per-stage status that is `complete` below the current
index, `current` at it and `pending` above it, and per-stage entry time and
notes recovered from the first history entry whose `stage` field matches that
stage's name (absent when no such entry exists). -/
theorem get_stage_progress_spec (txn : Transaction) :
    (get_stage_progress txn).current_stage = txn.current_stage.value
    ∧ (get_stage_progress txn).current_stage_index
        = stageIndex txn.current_stage
    ∧ (get_stage_progress txn).total_stages = 7
    ∧ (get_stage_progress txn).percent_complete
        = (100 * stageIndex txn.current_stage) / 7
    ∧ (get_stage_progress txn).percent_complete < 100
    ∧ (get_stage_progress txn).stages.length = 7
    ∧ (∀ i st, STAGE_ORDER.get? i = some st →
        ∃ si, (get_stage_progress txn).stages.get? i = some si
          ∧ si.stage = st.value
          ∧ si.order = i
          ∧ si.status = (if i < stageIndex txn.current_stage then "complete"
              else if i = stageIndex txn.current_stage then "current"
              else "pending")
          ∧ si.entered_at = (historyFindStage txn st.value).bind
              (fun e => entryGet e "entered_at")
          ∧ si.notes = (historyFindStage txn st.value).bind
              (fun e => entryGet e "notes")) := by
  refine ⟨rfl, rfl, rfl, ?_, ?_, ?_, ?_⟩
  · show (stageIndex txn.current_stage * 100) / STAGE_ORDER.length = _
    rw [Nat.mul_comm]
    rfl
  · show (stageIndex txn.current_stage * 100) / STAGE_ORDER.length < 100
    have h6 := stageIndex_le_six txn.current_stage
    have : stageIndex txn.current_stage * 100 ≤ 600 := by omega
    calc (stageIndex txn.current_stage * 100) / STAGE_ORDER.length
        ≤ 600 / STAGE_ORDER.length := Nat.div_le_div_right this
      _ < 100 := by decide
  · show (STAGE_ORDER.enum.map _).length = 7
    simp [STAGE_ORDER]
  · intro i st hst
    refine ⟨⟨st.value, i,
        (if i < stageIndex txn.current_stage then "complete"
          else if i == stageIndex txn.current_stage then "current"
          else "pending"),
        (historyFindStage txn st.value).bind (fun e => entryGet e "entered_at"),
        (historyFindStage txn st.value).bind (fun e => entryGet e "notes")⟩,
      ?_, rfl, rfl, ?_, rfl, rfl⟩
    · show ((get_stage_progress txn).stages).get? i = _
      simp only [get_stage_progress]
      rw [List.get?_map, List.get?_enum, hst]
      rfl
    · simp only [beq_iff_eq]


/-- Witness for C6: second-stage fixture, concrete stage index 1, 14 percent,
first stage reported complete with its recorded entry time. -/
theorem get_stage_progress_spec_witness :
    (get_stage_progress (txnAt TransactionStage.TITLE_SEARCH)).percent_complete = 14
    ∧ ((get_stage_progress (txnAt TransactionStage.TITLE_SEARCH)).stages.get? 0).map
        StageInfo.status = some "complete"
    ∧ ((get_stage_progress (txnAt TransactionStage.TITLE_SEARCH)).stages.get? 0).map
        StageInfo.entered_at = some (some (JValue.jnum 0)) := by
  obtain ⟨-, -, -, h4, -, -, h7⟩ :=
    get_stage_progress_spec (txnAt TransactionStage.TITLE_SEARCH)
  obtain ⟨si, hsi, -, -, hstatus, hent, -⟩ :=
    h7 0 TransactionStage.OFFER_ACCEPTED rfl
  refine ⟨?_, ?_, ?_⟩
  · rw [h4]; decide
  · rw [hsi]; simp only [Option.map_some']; rw [hstatus]; decide
  · rw [hsi]; simp only [Option.map_some']; rw [hent]; decide

theorem checkDocsLoop_eq_find (db : Db) (txn : Transaction) :
    ∀ l : List String, checkDocsLoop db txn l =
      match l.find? (fun dt => !(docApproved db txn dt)) with
      | none => (true, none)
      | some dt => (false, some ("Required document '" ++ dt ++ "' not approved")) := by
  intro l
  induction l with
  | nil => rfl
  | cons d rest ih =>
    by_cases h : docApproved db txn d
    · simp [checkDocsLoop, List.find?_cons, h, ih]
    · simp [checkDocsLoop, List.find?_cons, h]

/-- C2: `can_advance` evaluates terminal check, then blocking work items,
then required documents in order, first failure winning, with the code's
reason strings; the blocking condition is the existence of a non-completed
blocking work item of the case tied to the current stage, and a required
document type passes exactly when an APPROVED document of that type exists
for the case. -/
theorem can_advance_evaluation_order (db : Db) (txn : Transaction) :
    (txn.current_stage = TransactionStage.RECORDING_COMPLETE →
      can_advance_to_next_stage db txn
        = (false, some "Transaction is already complete"))
    ∧ (txn.current_stage ≠ TransactionStage.RECORDING_COMPLETE →
      (∃ t ∈ db.tasks, t.transaction_id = txn.id
          ∧ t.related_stage = txn.current_stage.value
          ∧ t.is_blocking = true ∧ t.status ≠ TaskStatus.COMPLETED) →
      can_advance_to_next_stage db txn
        = (false, some ("Blocking tasks incomplete: "
            ++ joinComma ((blockingTasksQuery db txn).map Task.title))))
    ∧ (txn.current_stage ≠ TransactionStage.RECORDING_COMPLETE →
      blockingTasksQuery db txn = [] →
      ∀ dt, firstMissingDoc db txn txn.current_stage = some dt →
      can_advance_to_next_stage db txn
        = (false, some ("Required document '" ++ dt ++ "' not approved")))
    ∧ (txn.current_stage ≠ TransactionStage.RECORDING_COMPLETE →
      blockingTasksQuery db txn = [] →
      firstMissingDoc db txn txn.current_stage = none →
      can_advance_to_next_stage db txn = (true, none))
    ∧ (∀ dt, docApproved db txn dt = true ↔
        ∃ d ∈ db.documents, d.transaction_id = txn.id
          ∧ d.document_type = dt ∧ d.status = DocumentStatus.APPROVED) := by
  refine ⟨?_, ?_, ?_, ?_, ?_⟩
  · intro hterm
    simp [can_advance_to_next_stage, hterm]
  · intro hterm hex
    have hne : blockingTasksQuery db txn ≠ [] := by
      obtain ⟨t, ht, h1, h2, h3, h4⟩ := hex
      intro hnil
      simp only [blockingTasksQuery] at hnil
      rw [List.filter_eq_nil_iff] at hnil
      have hc := hnil t ht
      simp [h1, h2, h3] at hc
      exact h4 hc
    simp only [can_advance_to_next_stage]
    rw [if_neg hterm, if_pos hne]
  · intro hterm hnil dt hdt
    simp only [can_advance_to_next_stage, check_required_documents,
      checkDocsLoop_eq_find]
    rw [if_neg hterm]
    simp only [blockingTasksQuery] at hnil
    rw [if_neg (by simp [blockingTasksQuery, hnil])]
    simp only [firstMissingDoc] at hdt
    rw [hdt]
    rfl
  · intro hterm hnil hnone
    simp only [can_advance_to_next_stage, check_required_documents,
      checkDocsLoop_eq_find]
    rw [if_neg hterm]
    simp only [blockingTasksQuery] at hnil
    rw [if_neg (by simp [blockingTasksQuery, hnil])]
    simp only [firstMissingDoc] at hnone
    rw [hnone]
    rfl
  · intro dt
    simp only [docApproved, List.any_eq_true, Bool.and_eq_true, beq_iff_eq]
    constructor
    · rintro ⟨d, hd, ⟨h1, h2⟩, h3⟩
      exact ⟨d, hd, h1, h2, h3⟩
    · rintro ⟨d, hd, h1, h2, h3⟩
      exact ⟨d, hd, ⟨h1, h2⟩, h3⟩

/-- Witness for C2: all four outcomes on concrete fixtures — terminal case,
pending blocking task, missing required document, and all checks passing. -/
theorem can_advance_evaluation_order_witness :
    can_advance_to_next_stage ⟨[], []⟩ (txnAt TransactionStage.RECORDING_COMPLETE)
        = (false, some "Transaction is already complete")
    ∧ can_advance_to_next_stage ⟨[sampleBlockingTask], []⟩
          (txnAt TransactionStage.OFFER_ACCEPTED)
        = (false, some "Blocking tasks incomplete: Deposit earnest money")
    ∧ can_advance_to_next_stage ⟨[], []⟩ (txnAt TransactionStage.UNDERWRITING)
        = (false, some "Required document 'proof_of_funds' not approved")
    ∧ can_advance_to_next_stage ⟨[], []⟩ (txnAt TransactionStage.OFFER_ACCEPTED)
        = (true, none) := by
  refine ⟨(can_advance_evaluation_order ⟨[], []⟩
      (txnAt TransactionStage.RECORDING_COMPLETE)).1 rfl, ?_, ?_, ?_⟩
  · have h := (can_advance_evaluation_order ⟨[sampleBlockingTask], []⟩
      (txnAt TransactionStage.OFFER_ACCEPTED)).2.1 (by decide)
      ⟨sampleBlockingTask, by decide, by decide, by decide, by decide, by decide⟩
    exact h.trans (by decide)
  · exact (can_advance_evaluation_order ⟨[], []⟩
      (txnAt TransactionStage.UNDERWRITING)).2.2.1 (by decide) (by decide)
      "proof_of_funds" (by decide)
  · exact (can_advance_evaluation_order ⟨[], []⟩
      (txnAt TransactionStage.OFFER_ACCEPTED)).2.2.2.1 (by decide) (by decide)
      (by decide)

/-- C3: `advance` raises `StageTransitionError` exactly on the terminal stage
regardless of `force`; with `force=false` it raises `StageRequirementError`
(carrying the reason text) exactly when the case is not terminal and
`can_advance` fails; `force=true` bypasses only the requirement check.  In
this pure embedding an error result carries no updated case and no created
work items, matching the code, where both `raise` statements come before any
mutation. -/
theorem advance_error_semantics (db : Db) (txn : Transaction) (now year : Nat)
    (notes : Option String) (force : Bool) :
    ((∃ m, advance_stage db txn now year notes force
        = Except.error (AdvanceError.stageTransition m))
      ↔ txn.current_stage = TransactionStage.RECORDING_COMPLETE)
    ∧ (force = false →
      ((∃ m, advance_stage db txn now year notes force
          = Except.error (AdvanceError.stageRequirement m))
        ↔ (txn.current_stage ≠ TransactionStage.RECORDING_COMPLETE
            ∧ (can_advance_to_next_stage db txn).fst = false)))
    ∧ (force = true →
      ((∃ r, advance_stage db txn now year notes force = Except.ok r)
        ↔ txn.current_stage ≠ TransactionStage.RECORDING_COMPLETE))
    ∧ (∀ m, advance_stage db txn now year notes force
        = Except.error (AdvanceError.stageRequirement m) →
      m = "Cannot advance stage: "
        ++ ((can_advance_to_next_stage db txn).snd.getD "None")) := by
  by_cases hterm : txn.current_stage = TransactionStage.RECORDING_COMPLETE
  · exact ⟨by simp [advance_stage, hterm], by simp [advance_stage, hterm],
      by simp [advance_stage, hterm], by simp [advance_stage, hterm]⟩
  · by_cases hcan : (can_advance_to_next_stage db txn).fst
    · exact ⟨by simp [advance_stage, hterm, hcan],
        by simp [advance_stage, hterm, hcan],
        by simp [advance_stage, hterm, hcan],
        by simp [advance_stage, hterm, hcan]⟩
    · cases force with
      | false =>
        exact ⟨by simp [advance_stage, hterm, hcan],
          by simp [advance_stage, hterm, hcan],
          by simp,
          by simp [advance_stage, hterm, hcan]⟩
      | true =>
        exact ⟨by simp [advance_stage, hterm, hcan],
          by simp,
          by simp [advance_stage, hterm, hcan],
          by simp [advance_stage, hterm, hcan]⟩

/-- Witness for C3: the terminal fixture raises the transition error even
when forced, and a blocked non-terminal case raises the requirement error
with the reason text. -/
theorem advance_error_semantics_witness :
    advance_stage ⟨[], []⟩ (txnAt TransactionStage.RECORDING_COMPLETE) 0 2024 none true
        = Except.error (AdvanceError.stageTransition "Transaction is already complete")
    ∧ advance_stage ⟨[sampleBlockingTask], []⟩ (txnAt TransactionStage.OFFER_ACCEPTED)
          0 2024 none false
        = Except.error (AdvanceError.stageRequirement
            "Cannot advance stage: Blocking tasks incomplete: Deposit earnest money") := by
  constructor
  · obtain ⟨m, hm⟩ := ((advance_error_semantics ⟨[], []⟩
      (txnAt TransactionStage.RECORDING_COMPLETE) 0 2024 none true).1).mpr rfl
    have hval : advance_stage ⟨[], []⟩ (txnAt TransactionStage.RECORDING_COMPLETE)
        0 2024 none true = Except.error (AdvanceError.stageTransition m) := hm
    have : m = "Transaction is already complete" := by
      have h2 : (advance_stage ⟨[], []⟩ (txnAt TransactionStage.RECORDING_COMPLETE)
          0 2024 none true) = Except.error
            (AdvanceError.stageTransition "Transaction is already complete") := by decide
      rw [h2] at hval
      exact (by simpa using hval.symm)
    rw [this] at hm
    exact hm
  · obtain ⟨m, hm⟩ := ((advance_error_semantics ⟨[sampleBlockingTask], []⟩
      (txnAt TransactionStage.OFFER_ACCEPTED) 0 2024 none false).2.1 rfl).mpr
      ⟨by decide, by decide⟩
    have hmsg := (advance_error_semantics ⟨[sampleBlockingTask], []⟩
      (txnAt TransactionStage.OFFER_ACCEPTED) 0 2024 none false).2.2.2 m hm
    rw [hm, hmsg]
    decide

/-- C4: one invocation of the stage task generator creates exactly the items
of the static template table for the stage — same count and, position by
position, the template's title, description, category, blocking flag and
priority — each pending, tied to the stage, due `now` plus the stage's
nominal duration, and assigned to the party bound to the template's role in
the case's role assignments (`none` when unassigned, which is not an error). -/
theorem generate_stage_tasks_matches_template (now year task_count : Nat)
    (txn : Transaction) (stage : TransactionStage) :
    (generate_stage_tasks now year task_count txn stage).length
        = (stage_tasks stage).length
    ∧ (∀ i td, (stage_tasks stage).get? i = some td →
        ((generate_stage_tasks now year task_count txn stage).get? i).map Task.title
            = some td.title
        ∧ ((generate_stage_tasks now year task_count txn stage).get? i).map Task.description
            = some td.description
        ∧ ((generate_stage_tasks now year task_count txn stage).get? i).map Task.task_type
            = some td.task_type
        ∧ ((generate_stage_tasks now year task_count txn stage).get? i).map Task.is_blocking
            = some td.is_blocking
        ∧ ((generate_stage_tasks now year task_count txn stage).get? i).map Task.priority
            = some td.priority
        ∧ ((generate_stage_tasks now year task_count txn stage).get? i).map Task.status
            = some TaskStatus.PENDING
        ∧ ((generate_stage_tasks now year task_count txn stage).get? i).map Task.related_stage
            = some stage.value
        ∧ ((generate_stage_tasks now year task_count txn stage).get? i).map Task.due_date
            = some (now + stageDurationGet stage)
        ∧ ((generate_stage_tasks now year task_count txn stage).get? i).map Task.assigned_to
            = some (get_party_by_role txn td.role)
        ∧ ((generate_stage_tasks now year task_count txn stage).get? i).map Task.assigned_by
            = some "system"
        ∧ ((generate_stage_tasks now year task_count txn stage).get? i).map Task.transaction_id
            = some txn.id) := by
  constructor
  · simp [generate_stage_tasks]
  · intro i td htd
    simp only [generate_stage_tasks]
    rw [List.get?_map, List.get?_enum, htd]
    exact ⟨rfl, rfl, rfl, rfl, rfl, rfl, rfl, rfl, rfl, rfl, rfl⟩

/-- Witness for C4: the first template row of the first stage, on the
role-assigned fixture: three items generated, first one assigned to the
buyer party. -/
theorem generate_stage_tasks_matches_template_witness :
    (generate_stage_tasks 0 2024 0 (txnAt TransactionStage.OFFER_ACCEPTED)
        TransactionStage.OFFER_ACCEPTED).length = 3
    ∧ ((generate_stage_tasks 0 2024 0 (txnAt TransactionStage.OFFER_ACCEPTED)
        TransactionStage.OFFER_ACCEPTED).get? 0).map Task.assigned_to
      = some (some "PARTY-001")
    ∧ ((generate_stage_tasks 0 2024 0 (txnAt TransactionStage.OFFER_ACCEPTED)
        TransactionStage.OFFER_ACCEPTED).get? 0).map Task.due_date = some 1 := by
  obtain ⟨hlen, hget⟩ := generate_stage_tasks_matches_template 0 2024 0
    (txnAt TransactionStage.OFFER_ACCEPTED) TransactionStage.OFFER_ACCEPTED
  obtain ⟨-, -, -, -, -, -, -, hdue, hassign, -, -⟩ :=
    hget 0 ⟨"Deposit earnest money",
      "Buyer must deposit earnest money to escrow account",
      .PAYMENT, "buyer", true, .CRITICAL⟩ rfl
  refine ⟨hlen.trans (by rfl), hassign.trans (by decide), hdue.trans (by decide)⟩

theorem natDigitsAux_lt_ten :
    ∀ fuel n, ∀ d ∈ natDigitsAux fuel n, d < 10 := by
  intro fuel
  induction fuel with
  | zero => intro n d hd; simp [natDigitsAux] at hd
  | succ f ih =>
    intro n d hd
    cases n with
    | zero => simp [natDigitsAux] at hd
    | succ m =>
      simp only [natDigitsAux, List.mem_cons] at hd
      rcases hd with hd | hd
      · subst hd; exact Nat.mod_lt _ (by norm_num)
      · exact ih _ d hd

theorem natDigitsAux_foldr :
    ∀ fuel n, n ≤ fuel →
      (natDigitsAux fuel n).foldr (fun d a => a * 10 + d) 0 = n := by
  intro fuel
  induction fuel with
  | zero =>
    intro n hn
    have : n = 0 := Nat.le_zero.mp hn
    subst this; rfl
  | succ f ih =>
    intro n hn
    cases n with
    | zero => rfl
    | succ m =>
      have hdiv : (m + 1) / 10 ≤ f := by
        have h1 : (m + 1) / 10 < m + 1 := Nat.div_lt_self (Nat.succ_pos m) (by norm_num)
        omega
      show ((m + 1) % 10 :: natDigitsAux f ((m + 1) / 10)).foldr
          (fun d a => a * 10 + d) 0 = m + 1
      rw [List.foldr_cons, ih _ hdiv]
      omega

theorem digit_chars_foldr :
    ∀ L : List Nat, (∀ d ∈ L, d < 10) →
      (L.map Nat.digitChar).foldr (fun c a => a * 10 + (c.toNat - 48)) 0
        = L.foldr (fun d a => a * 10 + d) 0 := by
  intro L
  induction L with
  | nil => intro h; rfl
  | cons d rest ih =>
    intro h
    have hd : d < 10 := h d (List.mem_cons_self d rest)
    have h10 : ∀ x, x < 10 → (Nat.digitChar x).toNat - 48 = x := by decide
    simp only [List.map_cons, List.foldr_cons]
    rw [ih (fun x hx => h x (List.mem_cons_of_mem d hx)), h10 d hd]

theorem leading_zeros_foldl :
    ∀ (k : Nat) (cs : List Char),
      (List.replicate k '0' ++ cs).foldl (fun a c => a * 10 + (c.toNat - 48)) 0
        = cs.foldl (fun a c => a * 10 + (c.toNat - 48)) 0 := by
  intro k
  induction k with
  | zero => intro cs; rfl
  | succ j ih =>
    intro cs
    simp only [List.replicate_succ, List.cons_append, List.foldl_cons]
    have h0 : (0 : Nat) * 10 + ('0'.toNat - 48) = 0 := by decide
    rw [h0, ih]

theorem parse_format04d (n : Nat) :
    (format04d n).data.foldl (fun a c => a * 10 + (c.toNat - 48)) 0 = n := by
  have hlt : ∀ d ∈ natDecimalDigits n, d < 10 := natDigitsAux_lt_ten n n
  have hcore : ((natDecimalDigits n).reverse.map Nat.digitChar).foldl
      (fun a c => a * 10 + (c.toNat - 48)) 0 = n := by
    rw [List.map_reverse, List.foldl_reverse, digit_chars_foldr _ hlt]
    exact natDigitsAux_foldr n n (le_refl n)
  show (let core := (natDecimalDigits n).reverse.map Nat.digitChar
    let padded := if core.length < 4
      then List.replicate (4 - core.length) '0' ++ core else core
    (String.mk padded).data).foldl (fun a c => a * 10 + (c.toNat - 48)) 0 = n
  by_cases hpad : ((natDecimalDigits n).reverse.map Nat.digitChar).length < 4
  · simp only [hpad, if_true]
    rw [leading_zeros_foldl]
    exact hcore
  · simp only [hpad, if_false]
    exact hcore

theorem string_data_inj {a b : String} (h : a.data = b.data) : a = b := by
  cases a; cases b; exact congrArg String.mk h

theorem format04d_injective (a b : Nat) (h : format04d a = format04d b) :
    a = b := by
  have hp := congrArg (fun s : String =>
    s.data.foldl (fun x c => x * 10 + (c.toNat - 48)) 0) h
  simpa [parse_format04d] using hp

theorem mkTaskId_injective (year a b : Nat)
    (h : mkTaskId year a = mkTaskId year b) : a = b := by
  have hd := congrArg String.data h
  simp only [mkTaskId, String.data_append, List.append_assoc] at hd
  have hx := List.append_cancel_left
    (List.append_cancel_left (List.append_cancel_left hd))
  exact format04d_injective a b (string_data_inj hx)

/-- C10: within a single invocation of the stage task generator the assigned
work-item identifiers are pairwise distinct (the numeric suffixes
`task_count + i + 1` are distinct and the zero-padded decimal format is
injective). -/
theorem generated_task_ids_distinct (now year task_count : Nat)
    (txn : Transaction) (stage : TransactionStage) :
    ((generate_stage_tasks now year task_count txn stage).map Task.id).Nodup := by
  have hform : (generate_stage_tasks now year task_count txn stage).map Task.id
      = ((stage_tasks stage).enum.map Prod.fst).map
          (fun i => mkTaskId year (task_count + i + 1)) := by
    simp only [generate_stage_tasks, List.map_map]
    rfl
  rw [hform, List.enum_map_fst]
  refine List.Nodup.map ?_ (List.nodup_range _)
  intro a b hab
  have := mkTaskId_injective year (task_count + a + 1) (task_count + b + 1) hab
  omega

theorem advance_ok_dest {db : Db} {txn : Transaction} {now year : Nat}
    {notes : Option String} {force : Bool} {txn' : Transaction} {ts : List Task}
    (h : advance_stage db txn now year notes force = Except.ok (txn', ts)) :
    txn.current_stage ≠ TransactionStage.RECORDING_COMPLETE
    ∧ txn'.current_stage = nextStage txn.current_stage
    ∧ txn'.stage_history = some (txn.stage_history.getD []
        ++ [advanceHistoryEntry (nextStage txn.current_stage) now notes force]) := by
  by_cases hterm : txn.current_stage = TransactionStage.RECORDING_COMPLETE
  · simp [advance_stage, hterm] at h
  · simp only [advance_stage] at h
    rw [if_neg hterm] at h
    by_cases hreq : (!force && !(can_advance_to_next_stage db txn).fst) = true
    · rw [if_pos hreq] at h
      exact absurd h (by simp)
    · rw [if_neg hreq] at h
      simp only [Except.ok.injEq, Prod.mk.injEq] at h
      obtain ⟨h1, -⟩ := h
      subst h1
      exact ⟨hterm, rfl, rfl⟩

theorem stageEnteredStages_append (l1 l2 : List HistoryEntry) :
    stageEnteredStages (l1 ++ l2)
      = stageEnteredStages l1 ++ stageEnteredStages l2 :=
  List.filterMap_append l1 l2 _

theorem stageEnteredStages_advanceEntry (st : TransactionStage) (now : Nat)
    (notes : Option String) (force : Bool) :
    stageEnteredStages [advanceHistoryEntry st now notes force] = [st.value] := rfl

theorem take_succ_stage (s : TransactionStage)
    (h : s ≠ TransactionStage.RECORDING_COMPLETE) :
    (STAGE_ORDER.map TransactionStage.value).take (stageIndex s + 1)
        ++ [(nextStage s).value]
      = (STAGE_ORDER.map TransactionStage.value).take (stageIndex s + 2) := by
  cases s <;> first | rfl | exact absurd rfl h

/-- C5: each successful `advance`, `deposit_earnest_money` or `verify_funds`
rewrites the history to the old history with exactly one new entry appended
at the end — so its length grows by exactly one, it never shrinks, and no
existing entry is modified. -/
theorem history_append_exactly_one :
    (∀ (db : Db) (txn : Transaction) (now year : Nat) (notes : Option String)
        (force : Bool) (txn' : Transaction) (ts : List Task),
      advance_stage db txn now year notes force = Except.ok (txn', ts) →
      txn'.stage_history = some (txn.stage_history.getD []
          ++ [advanceHistoryEntry (nextStage txn.current_stage) now notes force])
      ∧ (txn'.stage_history.getD []).length
          = (txn.stage_history.getD []).length + 1)
    ∧ (∀ (txn : Transaction) (now : Nat) (amount : Int)
        (deposited_at : Option Nat) (notes : Option String),
      (deposit_earnest_money txn now amount deposited_at notes).stage_history
        = some (txn.stage_history.getD []
            ++ [depositHistoryEntry now amount notes])
      ∧ ((deposit_earnest_money txn now amount deposited_at
            notes).stage_history.getD []).length
          = (txn.stage_history.getD []).length + 1)
    ∧ (∀ (txn : Transaction) (now : Nat) (verified_by : String)
        (method : Option String) (notes : Option String),
      (verify_funds txn now verified_by method notes).stage_history
        = some (txn.stage_history.getD []
            ++ [verifyHistoryEntry now verified_by method notes])
      ∧ ((verify_funds txn now verified_by method
            notes).stage_history.getD []).length
          = (txn.stage_history.getD []).length + 1) := by
  refine ⟨?_, ?_, ?_⟩
  · intro db txn now year notes force txn' ts h
    obtain ⟨-, -, hh⟩ := advance_ok_dest h
    exact ⟨hh, by rw [hh]; simp⟩
  · intro txn now amount deposited_at notes
    exact ⟨rfl, by simp [deposit_earnest_money]⟩
  · intro txn now verified_by method notes
    exact ⟨rfl, by simp [verify_funds]⟩

/-- Witness for C5: one concrete advance, deposit and verification each grow
the one-entry fixture history to length two. -/
theorem history_append_exactly_one_witness :
    (sampleAdvanced.stage_history.getD []).length
        = ((txnAt TransactionStage.OFFER_ACCEPTED).stage_history.getD []).length + 1
    ∧ ((deposit_earnest_money (txnAt TransactionStage.OFFER_ACCEPTED)
          7 9000 none none).stage_history.getD []).length = 2
    ∧ ((verify_funds (txnAt TransactionStage.OFFER_ACCEPTED)
          8 "system" none none).stage_history.getD []).length = 2 := by
  refine ⟨?_, ?_, ?_⟩
  · cases hres : advance_stage ⟨[], []⟩ (txnAt TransactionStage.OFFER_ACCEPTED)
        5 2024 none false with
    | error e =>
      have hok : (advance_stage ⟨[], []⟩ (txnAt TransactionStage.OFFER_ACCEPTED)
          5 2024 none false).isOk = true := by decide
      rw [hres] at hok
      exact absurd hok (by simp [Except.isOk, Except.toBool])
    | ok p =>
      obtain ⟨t1, ts⟩ := p
      have h := (history_append_exactly_one.1 ⟨[], []⟩
        (txnAt TransactionStage.OFFER_ACCEPTED) 5 2024 none false t1 ts hres).2
      have hs : sampleAdvanced = t1 := by
        simp [sampleAdvanced, hres, Except.map, Except.toOption]
      rw [hs]
      exact h
  · exact (history_append_exactly_one.2.1 (txnAt TransactionStage.OFFER_ACCEPTED)
      7 9000 none none).2.trans (by decide)
  · exact (history_append_exactly_one.2.2 (txnAt TransactionStage.OFFER_ACCEPTED)
      8 "system" none none).2.trans (by decide)

theorem runAdvances_stageInv :
    ∀ (ops : List AdvInput) (txn txn' : Transaction),
      stageInv txn → runAdvances txn ops = some txn' →
      stageInv txn'
      ∧ stageIndex txn'.current_stage
          = stageIndex txn.current_stage + ops.length := by
  intro ops
  induction ops with
  | nil =>
    intro txn txn' hinv h
    simp only [runAdvances, Option.some.injEq] at h
    subst h
    exact ⟨hinv, by simp⟩
  | cons a rest ih =>
    intro txn txn' hinv h
    simp only [runAdvances] at h
    cases hres : advance_stage a.db txn a.now a.year a.notes a.force with
    | error e =>
      rw [hres] at h
      exact absurd h (by simp)
    | ok p =>
      obtain ⟨t1, ts⟩ := p
      rw [hres] at h
      obtain ⟨hterm, hstage, hhist⟩ := advance_ok_dest hres
      have hidx : stageIndex t1.current_stage
          = stageIndex txn.current_stage + 1 := by
        rw [hstage]
        exact stageIndex_nextStage _ hterm
      have hinv1 : stageInv t1 := by
        unfold stageInv at hinv ⊢
        rw [hhist, hidx]
        simp only [Option.getD_some]
        rw [stageEnteredStages_append, stageEnteredStages_advanceEntry, hinv]
        exact take_succ_stage _ hterm
      obtain ⟨hi1, hi2⟩ := ih t1 txn' hinv1 h
      refine ⟨hi1, ?_⟩
      rw [hi2, hidx]
      simp only [List.length_cons]
      omega

/-- C1: starting from case creation, after any sequence of successful
advances the stage-entered events of the history are exactly the length
`k+1` prefix of the fixed 7-stage order (where `k` is the number of
advances, at most 6), the stage pointer sits at index `k`, and every
successful advance moves the pointer to the immediate successor of the
previous stage — no skipping, no reordering, no backward movement. -/
theorem advance_trace_stage_prefix (now year txn_count task_count : Nat)
    (roles : RoleIds) (ops : List AdvInput) (txn' : Transaction)
    (h : runAdvances (create_transaction now year txn_count task_count roles).fst
        ops = some txn') :
    stageEnteredStages (txn'.stage_history.getD [])
      = (STAGE_ORDER.map TransactionStage.value).take (ops.length + 1)
    ∧ stageIndex txn'.current_stage = ops.length
    ∧ ops.length ≤ 6
    ∧ (∀ (a : AdvInput) (t t' : Transaction) (ts : List Task),
        advance_stage a.db t a.now a.year a.notes a.force = Except.ok (t', ts) →
        t'.current_stage = nextStage t.current_stage
        ∧ stageIndex t'.current_stage = stageIndex t.current_stage + 1) := by
  have hinv0 : stageInv
      (create_transaction now year txn_count task_count roles).fst := rfl
  obtain ⟨hinv, hidx⟩ := runAdvances_stageInv ops _ txn' hinv0 h
  have hidx0 : stageIndex
      (create_transaction now year txn_count task_count roles).fst.current_stage
      = 0 := rfl
  rw [hidx0, Nat.zero_add] at hidx
  refine ⟨?_, hidx, ?_, ?_⟩
  · unfold stageInv at hinv
    rw [hidx] at hinv
    exact hinv
  · have h6 := stageIndex_le_six txn'.current_stage
    omega
  · intro a t t' ts hadv
    obtain ⟨hterm, hstage, -⟩ := advance_ok_dest hadv
    exact ⟨hstage, by rw [hstage]; exact stageIndex_nextStage _ hterm⟩

/-- Witness for C1: creating a case and advancing once yields exactly the
first two stage names as the stage-entered events. -/
theorem advance_trace_stage_prefix_witness :
    stageEnteredStages (((runAdvances
        (create_transaction 0 2024 0 0 sampleRoles).fst
        [⟨⟨[], []⟩, 5, 2024, none, false⟩]).getD
          (txnAt TransactionStage.OFFER_ACCEPTED)).stage_history.getD [])
      = (STAGE_ORDER.map TransactionStage.value).take 2 := by
  have hrun : runAdvances (create_transaction 0 2024 0 0 sampleRoles).fst
      [⟨⟨[], []⟩, 5, 2024, none, false⟩]
      = some ((runAdvances (create_transaction 0 2024 0 0 sampleRoles).fst
          [⟨⟨[], []⟩, 5, 2024, none, false⟩]).getD
            (txnAt TransactionStage.OFFER_ACCEPTED)) := by decide
  have h := advance_trace_stage_prefix 0 2024 0 0 sampleRoles
    [⟨⟨[], []⟩, 5, 2024, none, false⟩] _ hrun
  simpa using h.1

/-- C9 counterexample: the initial history entry written at case creation
carries only the keys `stage`, `entered_at`, `notes` — it has no forced
flag, so it fits neither of the claim's two entry shapes. -/
theorem history_entry_shape_counterexample :
    (create_transaction 0 2024 0 0 sampleRoles).fst.stage_history
        = some [createHistoryEntry 0]
    ∧ (isAdvanceStageShape (createHistoryEntry 0)
        || isDomainEventShape (createHistoryEntry 0)) = false :=
  ⟨rfl, by decide⟩

theorem runCaseOps_histShape :
    ∀ (ops : List CaseOp) (txn txn' : Transaction),
      histShapeInv txn → runCaseOps txn ops = some txn' →
      histShapeInv txn' := by
  intro ops
  induction ops with
  | nil =>
    intro txn txn' hinv h
    simp only [runCaseOps, Option.some.injEq] at h
    subst h
    exact hinv
  | cons op rest ih =>
    intro txn txn' hinv h
    simp only [runCaseOps] at h
    cases hap : applyCaseOp txn op with
    | none =>
      rw [hap] at h
      exact absurd h (by simp)
    | some t1 =>
      rw [hap] at h
      refine ih t1 txn' ?_ h
      cases op with
      | adv a =>
        simp only [applyCaseOp] at hap
        cases hres : advance_stage a.db txn a.now a.year a.notes a.force with
        | error e =>
          rw [hres] at hap
          exact absurd hap (by simp)
        | ok p =>
          obtain ⟨t2, ts⟩ := p
          rw [hres] at hap
          simp only [Option.some.injEq] at hap
          subst hap
          obtain ⟨-, -, hhist⟩ := advance_ok_dest hres
          intro e he
          rw [hhist] at he
          simp only [Option.getD_some] at he
          rcases List.mem_append.mp he with hold | hnew
          · exact hinv e hold
          · rw [List.mem_singleton.mp hnew]
            rfl
      | dep dnow amount deposited_at notes =>
        simp only [applyCaseOp, Option.some.injEq] at hap
        subst hap
        intro e he
        simp only [deposit_earnest_money, Option.getD_some] at he
        rcases List.mem_append.mp he with hold | hnew
        · exact hinv e hold
        · rw [List.mem_singleton.mp hnew]
          rfl
      | ver vnow verified_by method notes =>
        simp only [applyCaseOp, Option.some.injEq] at hap
        subst hap
        intro e he
        simp only [verify_funds, Option.getD_some] at he
        rcases List.mem_append.mp he with hold | hnew
        · exact hinv e hold
        · rw [List.mem_singleton.mp hnew]
          rfl

/-- C9 (amended): starting from case creation, every history entry of every
reachable case has one of exactly three shapes: the initial creation entry
`{stage, entered_at, notes}` (no forced flag), a stage-entered event
`{stage, entered_at, notes, forced}` appended by advance, or a domain event
`{event, timestamp, attributes...}`. -/
theorem history_entry_shapes_amended (now year txn_count task_count : Nat)
    (roles : RoleIds) (ops : List CaseOp) (txn' : Transaction)
    (h : runCaseOps (create_transaction now year txn_count task_count roles).fst
        ops = some txn') :
    ∀ e ∈ txn'.stage_history.getD [],
      (isCreateStageShape e || isAdvanceStageShape e
        || isDomainEventShape e) = true := by
  have h0 : histShapeInv
      (create_transaction now year txn_count task_count roles).fst := by
    intro e he
    rw [List.mem_singleton.mp he]
    rfl
  exact runCaseOps_histShape ops _ txn' h0 h

/-- Witness for C9 (amended): a concrete run with one deposit; both the
creation entry and the domain-event entry have a good shape. -/
theorem history_entry_shapes_amended_witness :
    (isCreateStageShape (createHistoryEntry 0)
      || isAdvanceStageShape (createHistoryEntry 0)
      || isDomainEventShape (createHistoryEntry 0)) = true
    ∧ (isCreateStageShape (depositHistoryEntry 7 9000 none)
      || isAdvanceStageShape (depositHistoryEntry 7 9000 none)
      || isDomainEventShape (depositHistoryEntry 7 9000 none)) = true := by
  have hrun : runCaseOps (create_transaction 0 2024 0 0 sampleRoles).fst
      [CaseOp.dep 7 9000 none none]
      = some (deposit_earnest_money
          (create_transaction 0 2024 0 0 sampleRoles).fst 7 9000 none none) := rfl
  have h := history_entry_shapes_amended 0 2024 0 0 sampleRoles
    [CaseOp.dep 7 9000 none none] _ hrun
  exact ⟨h (createHistoryEntry 0) (by decide),
    h (depositHistoryEntry 7 9000 none) (by decide)⟩

end Accelyra
